import Mathlib

/-!
Verification of the protocol core of the Dynamixel AX-12A servo driver.

The definitions below are shallow embeddings of the Python source files
`dynamixel.py` (packet framing and checksum, status-packet reading, the
sync-write path), `custom_decorator.py` (the blanket error-handling
decorator), `custom_exceptions.py` (the fault taxonomy) and `joint_drive.py`
(unit conversion and the joint-level setters).

Modelling conventions:
* serial bytes are `Nat` values (the driver only ever receives values
  0..255 from the serial line);
* the Python expression `(~s) & 0xFF` for a non-negative `s` is modelled
  exactly as `((-(s : Int) - 1) % 256).toNat` (Python `~s` is `-s-1`, and
  `& 0xFF` of a negative int is its value modulo 256);
* Python floats are modelled as real numbers, Python `int(x)` is truncation
  toward zero and `math.floor` is the floor function;
* a raised Python exception is modelled as an `Except.error` value, and a
  function's transport output is returned explicitly as data.
-/

/-- The exception classes of `custom_exceptions.py` that the driver can
raise, plus `indexError` for the `IndexError` that a set bit 7 would
produce in `Dynamixel.__log_excep` (its `err_lst` has only seven entries)
and `zeroDivision` for the `ZeroDivisionError` an empty sync-write batch
would produce. -/
inductive Fault
  | inputVoltage
  | angleLimit
  | overheating
  | rangeFault
  | checksumFault
  | overload
  | instruction
  | indexError
  | packetType
  | memoryAccess
  | zeroDivision
  deriving DecidableEq, Repr

/-- The Python values returned by the driver functions modelled here:
`None`, booleans and byte lists. -/
inductive PyVal
  | none
  | bool (b : Bool)
  | bytes (l : List Nat)
  deriving DecidableEq, Repr

/-- `Dynamixel.__check_sum`: `s = sum(pkt[2:-1]); return (~s) & 0xFF`.
`pkt[2:-1]` is the list with the first two bytes and the last byte
removed. -/
def check_sum (pkt : List Nat) : Nat :=
  ((-(((pkt.drop 2).dropLast).sum : Int) - 1) % 256).toNat

/-- The checksum rule as the specification states it: sum the bytes from
the id byte (index 2) through the last parameter (all bytes strictly
between index 2 and the trailing checksum byte, inclusive of both ends of
that range), bitwise-NOT, masked to one byte.  For a non-negative sum the
mask makes this `255 - sum % 256`. -/
def checksum_spec (bytes : List Nat) : Nat :=
  255 - ((bytes.drop 2).dropLast).sum % 256

/-- Transmission part of `Dynamixel.__send_packet` (also the pattern of
`Dynamixel.ping` and `Dynamixel._send_sync`): `pkt[-1] = __check_sum(pkt)`
followed by `serial_port.write(bytearray(pkt))`.  The value is the byte
list handed to the serial line. -/
def send_packet_bytes (pkt : List Nat) : List Nat :=
  pkt.dropLast ++ [check_sum pkt]

/-- `Dynamixel.ping`: template `[255, 255, 0, 0x02, 0x01, 0]` with
`ping[2] = id` and the checksum filled into the last slot. -/
def ping_packet (id : Nat) : List Nat :=
  send_packet_bytes [255, 255, id, 2, 1, 0]

/-- `Dynamixel.__do_action`: template `[255, 255, 0, 2, 5, 0]` with
`pkt[2] = id`, sent through `__send_packet`. -/
def action_packet (id : Nat) : List Nat :=
  send_packet_bytes [255, 255, id, 2, 5, 0]

/-- `Dynamixel.__write_read_data_pkt`: template `[255, 255, 0, 4, 2, 0, 0, 0]`
with `pkt[2] = id`, `pkt[5] = register`, `pkt[6] = n_byte`, sent through
`__send_packet`. -/
def read_data_packet (id register n_byte : Nat) : List Nat :=
  send_packet_bytes [255, 255, id, 4, 2, register, n_byte, 0]

/-- `Dynamixel._write_n_byte_pkt`: template `[255, 255, 0, 0, 3, 0]` with
`pkt[2] = id`, `pkt[3] = len(data) + 3`, `pkt[4] = 3` (direct action) when
`trigger` else `4`, `pkt[5] = register`, then the data bytes and a dummy
checksum byte `0`, sent through `__send_packet`. -/
def write_n_byte_packet (id register : Nat) (data : List Nat) (trigger : Bool) : List Nat :=
  send_packet_bytes
    ([255, 255, id, data.length + 3, if trigger then 3 else 4, register] ++ data ++ [0])

/-- `err_lst` of `Dynamixel.__log_excep`; the source warns not to alter the
order. -/
def err_lst : List Fault :=
  [.inputVoltage, .angleLimit, .overheating, .rangeFault, .checksumFault,
   .overload, .instruction]

/-- Index of the lowest set bit among bits 0..7.  The loop in
`Dynamixel.__log_excep` walks the characters of `bin(err).zfill(8)`
reversed, i.e. bit 0 first, and acts on the first character equal to 1. -/
def first_set_bit (err : Nat) : Option Nat :=
  (List.range 8).find? (fun c => err.testBit c)

/-- Body of `Dynamixel.__log_excep` for a status byte `err < 256`: returns
`True` when `err == 0`; otherwise the loop raises `err_lst[c]` at the first
set bit `c`, and the raise aborts the loop, so at most one fault is raised
per call (a set bit 7 would index past `err_lst` and produce an
`IndexError`).  The raised exception is the `Except.error` value. -/
def log_excep_exc (err : Nat) : Except Fault PyVal :=
  if err = 0 then .ok (.bool true)
  else
    match first_set_bit err with
    | some c => .error (err_lst.getD c .indexError)
    | none => .ok .none

/-- The fault, if any, raised inside one call of `Dynamixel.__log_excep`. -/
def log_excep_raised (err : Nat) : Option Fault :=
  match log_excep_exc err with
  | .error f => some f
  | .ok _ => none

/-- `decorator_error_handling` of `custom_decorator.py`: runs the wrapped
function; on success it returns the function's value, on any exception it
prints two messages and falls through, returning `None`.  The wrapped
caller receives only this value. -/
def wrapper_result (r : Except Fault PyVal) : PyVal :=
  match r with
  | .ok v => v
  | .error _ => .none

/-- Per-servo state of a `Dynamixel` object: the servo `id`, the
`return_level` (set to 2 in the constructor) and the stored last error
byte `err` (set to 0 in the constructor). -/
structure Session where
  id : Nat
  return_level : Nat
  err : Nat
  deriving DecidableEq, Repr

/-- The serial line: `inbuf` is the sequence of bytes available to read
(a read of `n` bytes returns at most `n` of them, fewer on timeout) and
`writes` records each byte list handed to `serial_port.write`. -/
structure Bus where
  inbuf : List Nat
  writes : List (List Nat)
  deriving DecidableEq, Repr

/-- `serial_port.read(n)`: consumes and returns up to `n` buffered bytes. -/
def serial_read (b : Bus) (n : Nat) : Bus × List Nat :=
  ({ b with inbuf := b.inbuf.drop n }, b.inbuf.take n)

/-- `Dynamixel.__read_status_pkt`: reads `n_byte` bytes; when at least 6
bytes arrived, stores byte index 4 as `self.err`; then calls
`__log_excep(self.err)` (whose raised fault is the third component; the
decorator on `__log_excep` swallows it again) and returns the raw bytes.
No header, length or checksum validation is performed. -/
def read_status_pkt (s : Session) (b : Bus) (n_byte : Nat) :
    Session × Bus × Option Fault × List Nat :=
  let r := serial_read b n_byte
  let s1 := if 6 ≤ r.2.length then { s with err := r.2.getD 4 0 } else s
  (s1, r.1, log_excep_raised s1.err, r.2)

/-- `Dynamixel.__send_packet`: fills in the checksum, writes the packet to
the serial line, and, when `return_level == 2 and read_pkt == False`,
immediately reads back a 6-byte status packet. -/
def send_packet (s : Session) (b : Bus) (pkt : List Nat) (read_pkt : Bool) :
    Session × Bus × Option Fault :=
  let out := send_packet_bytes pkt
  let b1 : Bus := { b with writes := b.writes ++ [out] }
  if s.return_level = 2 ∧ read_pkt = false then
    let r := read_status_pkt s b1 6
    (r.1, r.2.1, r.2.2.1)
  else (s, b1, none)

/-- `Dynamixel.__write_read_data_pkt`: builds the read-data packet for this
servo and sends it with `read_pkt = True` (no status read inside
`__send_packet`). -/
def write_read_data_pkt (s : Session) (b : Bus) (register n_byte : Nat) :
    Session × Bus × Option Fault :=
  send_packet s b [255, 255, s.id, 4, 2, register, n_byte, 0] true

/-- `Dynamixel._request_n_byte`: sends the read command, then reads a
status packet of `6 + dt_len` bytes (`__STATUS_PACKET_BASE_LENGTH + dt_len`)
and returns `return_packet[5:-1]`.  Components: final session, final bus,
fault raised inside the status read's error logging, returned payload. -/
def request_n_byte (s : Session) (b : Bus) (register dt_len : Nat) :
    Session × Bus × Option Fault × List Nat :=
  let w := write_read_data_pkt s b register dt_len
  let r := read_status_pkt w.1 w.2.1 (6 + dt_len)
  (r.1, r.2.1, r.2.2.1, (r.2.2.2.drop 5).dropLast)

/-- The accumulation loop of `Dynamixel._sync_write`: for each batch entry
it appends the servo id to `id_lst` and the entry's values to `data_lst`,
and raises `PacketTypeError` as soon as
`len(data_lst) % len(id_lst) != 0`. -/
def sync_collect : List (Nat × List Nat) → List Nat → List Nat →
    Except Fault (List Nat × List Nat)
  | [], ids, data => .ok (ids, data)
  | (i, vals) :: rest, ids, data =>
    let ids1 := ids ++ [i]
    let data1 := data ++ vals
    if data1.length % ids1.length ≠ 0 then .error .packetType
    else sync_collect rest ids1 data1

/-- One 16-bit value serialized for sync write: low byte then high byte
(`dword & 0xFF`, `(dword >> 8) & 0xFF`). -/
def word_bytes (v : Nat) : List Nat :=
  [v % 256, v / 256 % 256]

/-- `Dynamixel._sync_write` body: template `[0xFF, 0xFF, 0xFE, 0, 0x83, 0, 0]`;
runs the collection loop (which may raise `PacketTypeError`), computes
`data_length = (len(data_lst) / len(id_lst)) * 2`, fills in the length
field `(data_length + 1) * len(id_lst) + 4`, the register address and
`data_length`, appends each entry's id followed by its values in low/high
byte order plus a dummy checksum, and hands the finished packet to
`_send_sync` (checksum fill-in plus one serial write).  An empty batch
would divide by zero.  `.ok` carries the transmitted bytes; `.error`
means the exception was raised before anything was written. -/
def sync_write (mem_address : Nat) (packet : List (Nat × List Nat)) :
    Except Fault (List Nat) :=
  match sync_collect packet [] [] with
  | .error f => .error f
  | .ok (id_lst, data_lst) =>
    if id_lst.length = 0 then .error .zeroDivision
    else
      let data_length := data_lst.length / id_lst.length * 2
      let base := [255, 255, 254, (data_length + 1) * id_lst.length + 4, 131,
                   mem_address, data_length]
      let body := packet.foldl
        (fun acc p => acc ++ [p.1] ++ p.2.foldl (fun a v => a ++ word_bytes v) []) []
      .ok (send_packet_bytes (base ++ body ++ [0]))

/-- The byte lists `Dynamixel._sync_write` hands to the serial line: one
write on success, none when the exception aborted the call. -/
def sync_write_writes (mem_address : Nat) (packet : List (Nat × List Nat)) :
    List (List Nat) :=
  match sync_write mem_address packet with
  | .ok t => [t]
  | .error _ => []

/-- Return value of the `Dynamixel._sync_write` body as the decorator sees
it: the function body returns `None` when it runs to completion, and
raises otherwise. -/
def sync_write_ret (mem_address : Nat) (packet : List (Nat × List Nat)) :
    Except Fault PyVal :=
  match sync_write mem_address packet with
  | .ok _ => .ok .none
  | .error f => .error f

/-- Python `int(x)` on a float: truncation toward zero. -/
noncomputable def py_int (x : ℝ) : ℤ :=
  if 0 ≤ x then ⌊x⌋ else ⌈x⌉

/-- `ServoAx12a._SPEED_MAX_RPM = 1023 * 0.111`. -/
noncomputable def _SPEED_MAX_RPM : ℝ := 1023 * (111 / 1000)

/-- `ServoAx12a._LIMITED_MAX_TICKS = int((1023 / _SPEED_MAX_RPM) * 80)`. -/
noncomputable def _LIMITED_MAX_TICKS : ℤ :=
  py_int (1023 / _SPEED_MAX_RPM * 80)

/-- `ServoAx12a._LIMITED_PERC_UNIT = _LIMITED_MAX_TICKS / 100`. -/
noncomputable def _LIMITED_PERC_UNIT : ℝ :=
  (_LIMITED_MAX_TICKS : ℝ) / 100

/-- `JointDrive._ANGLE_UNIT`: ticks per radian,
`1023 / ((300 - 0) * pi * 2 / 360)`. -/
noncomputable def _ANGLE_UNIT : ℝ :=
  1023 / ((300 - 0) * Real.pi * 2 / 360)

/-- `JointDrive.__convert_angle_to_ticks`: `angle = angle + offset`,
`ticks = int(angle * _ANGLE_UNIT)`, and `ticks = 1023 - 1 - ticks` when the
rotation sense is reversed (`ccw`). -/
noncomputable def convert_angle_to_ticks (angle : ℝ) (ccw : Bool) (offset : ℝ) : ℤ :=
  let a := angle + offset
  let ticks := py_int (a * _ANGLE_UNIT)
  if ccw then 1023 - 1 - ticks else ticks

/-- `JointDrive.__convert_ticks_to_angle`: `ticks = 1023 - ticks` when
reversed, then `angle = ticks / _ANGLE_UNIT - offset`. -/
noncomputable def convert_ticks_to_angle (ticks : ℤ) (ccw : Bool) (offset : ℝ) : ℝ :=
  let t := if ccw then 1023 - ticks else ticks
  (t : ℝ) / _ANGLE_UNIT - offset

/-- `JointDrive.__convert_percent_speed_to_ticks`: clamp the percentage to
`[0, 100]` with `numpy.clip`, then `math.floor(perc * _LIMITED_PERC_UNIT)`. -/
noncomputable def convert_percent_speed_to_ticks (perc : ℝ) : ℤ :=
  ⌊min (max perc 0) 100 * _LIMITED_PERC_UNIT⌋

/-- Joint-level state of a `JointDrive` object: rotation sense `ccw`, the
stored offset `a_offset` (the constructor stores `_ANGLE_RADIAN_ZERO +
a_offset`), the soft limits `a_max` and `a_min`, and the
`savedgoalposition` attribute (0 after construction). -/
structure Joint where
  ccw : Bool
  a_offset : ℝ
  a_max : ℝ
  a_min : ℝ
  savedgoalposition : ℝ

/-- Outcome of a joint-level setter as the caller sees it: either the body
printed `msg` and returned `True` early, or it ran to completion (returning
`None`). -/
inductive SetResult
  | refused (msg : String)
  | completed
  deriving DecidableEq, Repr

/-- `JointDrive.get_saved_goal_position`: returns `self.savedgoalposition`. -/
def get_saved_goal_position (j : Joint) : ℝ :=
  j.savedgoalposition

/-- `JointDrive.set_goal_position`: assigns the requested angle to a local
variable `savedgoalposition` (not to `self.`, so the object is unchanged);
refuses with a printed message and `return True` when the angle is above
`a_max - a_offset` or below `a_min - a_offset`; otherwise converts to ticks
and calls `super().set_goal_position(ticks, trigger)`, which performs one
word write to the goal-position register 0x1E (one packet on the serial
line).  Components: the object state after the call, the outcome, and the
word-write calls `(register, words)` issued to the servo layer. -/
noncomputable def set_goal_position (j : Joint) (angle : ℝ) :
    Joint × SetResult × List (Nat × List ℤ) :=
  if angle > j.a_max - j.a_offset then (j, .refused "Angle zu groß", [])
  else if angle < j.a_min - j.a_offset then (j, .refused "Angle zu klein", [])
  else (j, .completed, [(30, [convert_angle_to_ticks angle j.ccw j.a_offset])])

/-- `JointDrive.set_desired_angle_speed`: first assigns
`self.savedgoalposition = angle` (before any check), then refuses when the
angle is outside `[a_min - a_offset, a_max - a_offset]` or the speed is
outside `[0, _SPEED_MAX_RPM]`; otherwise converts and calls
`set_goal_pos_speed`, which issues two word writes (goal position 0x1E,
then moving speed 0x20). -/
noncomputable def set_desired_angle_speed (j : Joint) (angle speed : ℝ) :
    Joint × SetResult × List (Nat × List ℤ) :=
  let j1 : Joint := { j with savedgoalposition := angle }
  if angle > j.a_max - j.a_offset then (j1, .refused "Angle zu groß", [])
  else if angle < j.a_min - j.a_offset then (j1, .refused "Angle zu klein", [])
  else if speed > _SPEED_MAX_RPM ∨ speed < 0 then (j1, .refused "Invalid speed value", [])
  else
    (j1, .completed,
      [(30, [convert_angle_to_ticks angle j.ccw j.a_offset]),
       (32, [convert_percent_speed_to_ticks speed])])

lemma check_sum_eq_checksum_spec (pkt : List Nat) : check_sum pkt = checksum_spec pkt := by
  unfold check_sum checksum_spec
  omega

/-- Filling the checksum into the dummy last slot of `core ++ [0]` produces
a packet whose trailing byte satisfies the spec's checksum rule for the
transmitted bytes themselves. -/
lemma trailing_checksum_core (core : List Nat) (h : 2 ≤ core.length) :
    (send_packet_bytes (core ++ [0])).getLast? =
      some (checksum_spec (send_packet_bytes (core ++ [0]))) := by
  have h1 : send_packet_bytes (core ++ [0]) = core ++ [check_sum (core ++ [0])] := by
    unfold send_packet_bytes
    rw [List.dropLast_concat]
  rw [h1, List.getLast?_concat]
  congr 1
  rw [check_sum_eq_checksum_spec]
  unfold checksum_spec
  rw [List.drop_append_of_le_length h, List.drop_append_of_le_length h,
    List.dropLast_concat, List.dropLast_concat]

/-- Every packet the sync-write path hands to the serial line has the
shape `core ++ [0]` with the checksum filled in by `_send_sync`. -/
lemma sync_write_ok_shape (mem_address : Nat) (packet : List (Nat × List Nat))
    (t : List Nat) (h : sync_write mem_address packet = .ok t) :
    ∃ core : List Nat, 2 ≤ core.length ∧ t = send_packet_bytes (core ++ [0]) := by
  unfold sync_write at h
  split at h
  · exact absurd h (by simp)
  · split at h
    · exact absurd h (by simp)
    · injection h with h
      subst h
      refine ⟨_, ?_, by rw [List.append_assoc]⟩
      simp

/-- Claim C1: for every outbound packet of the driver — ping, action,
read-data, the n-byte write family, and sync write — the trailing
transmitted byte equals the bitwise-NOT of the sum of the transmitted
bytes from the id byte (index 2) through the last parameter, masked to one
byte (`checksum_spec`). -/
theorem checksum_invariant_all_packets (id register n_byte mem_address : Nat)
    (data : List Nat) (trigger : Bool) (batch : List (Nat × List Nat))
    (t : List Nat) :
    (ping_packet id).getLast? = some (checksum_spec (ping_packet id)) ∧
    (action_packet id).getLast? = some (checksum_spec (action_packet id)) ∧
    (read_data_packet id register n_byte).getLast? =
      some (checksum_spec (read_data_packet id register n_byte)) ∧
    (write_n_byte_packet id register data trigger).getLast? =
      some (checksum_spec (write_n_byte_packet id register data trigger)) ∧
    (sync_write mem_address batch = .ok t →
      t.getLast? = some (checksum_spec t)) := by
  refine ⟨?_, ?_, ?_, ?_, ?_⟩
  · exact trailing_checksum_core [255, 255, id, 2, 1] (by simp)
  · exact trailing_checksum_core [255, 255, id, 2, 5] (by simp)
  · exact trailing_checksum_core [255, 255, id, 4, 2, register, n_byte] (by simp)
  · have h := trailing_checksum_core
      ([255, 255, id, data.length + 3, if trigger then 3 else 4, register] ++ data)
      (by simp)
    simpa [write_n_byte_packet, List.append_assoc] using h
  · intro hok
    obtain ⟨core, hcore, ht⟩ := sync_write_ok_shape mem_address batch t hok
    rw [ht]
    exact trailing_checksum_core core hcore

/-- Witness for `checksum_invariant_all_packets` at concrete inputs,
including a concrete sync-write batch whose transmitted packet is computed
by evaluation. -/
theorem checksum_invariant_all_packets_witness :
    [255, 255, 254, 9, 131, 30, 4, 1, 10, 0, 20, 0, 52].getLast? =
      some (checksum_spec [255, 255, 254, 9, 131, 30, 4, 1, 10, 0, 20, 0, 52]) :=
  (checksum_invariant_all_packets 1 43 1 30 [] false [(1, [10, 20])]
    [255, 255, 254, 9, 131, 30, 4, 1, 10, 0, 20, 0, 52]).2.2.2.2 (by rfl)

/-- Claim C2 is false on the code: for error byte `0b00000101` (bits 0 and
2 set) the claim demands exactly the input-voltage fault and the
overheating fault; the loop in `__log_excep` raises the input-voltage
fault at bit 0 and the raise aborts the call, so the overheating fault is
never surfaced. -/
theorem log_excep_error_byte_five_counterexample :
    log_excep_exc 5 = .error Fault.inputVoltage ∧
    log_excep_raised 5 ≠ some Fault.overheating ∧
    log_excep_raised 5 = some Fault.inputVoltage := by
  refine ⟨rfl, by decide, rfl⟩

/-- Claim C2 (amended): for a status byte below 128 (bit 7 is unused),
decoding raises no fault when the byte is zero, and otherwise raises
exactly the fault of the lowest set bit, in the order input-voltage,
angle-limit, overheating, range, checksum, overload, instruction; in
particular error byte `0b00000101` yields only the input-voltage fault. -/
theorem log_excep_lowest_set_bit :
    ∀ err : Nat, err < 128 →
      (err = 0 → log_excep_raised err = none) ∧
      (∀ c : Nat, c < 7 → err.testBit c = true →
        (∀ c2 : Nat, c2 < c → err.testBit c2 = false) →
        log_excep_raised err = some (err_lst.getD c .indexError)) := by
  decide

/-- Witness for `log_excep_lowest_set_bit` at error byte 5, lowest set
bit 0. -/
theorem log_excep_lowest_set_bit_witness :
    log_excep_raised 5 = some (err_lst.getD 0 .indexError) :=
  (log_excep_lowest_set_bit 5 (by decide)).2 0 (by decide) (by decide)
    (fun c2 hc2 => absurd hc2 (Nat.not_lt_zero c2))

/-- Claim C3 is false on the code: the sync-write body raises a
`PacketTypeError` on a mismatched batch, but `decorator_error_handling`
catches every exception, prints, and returns `None` — the same value an
exception-free run of the body returns — so the immediate caller cannot
distinguish the swallowed fault from success. -/
theorem decorator_swallows_fault_counterexample :
    sync_write_ret 30 [(1, [10, 20]), (2, [10, 20, 30])] = .error .packetType ∧
    sync_write_ret 30 [(1, [10, 20]), (2, [30, 40])] = .ok .none ∧
    wrapper_result (sync_write_ret 30 [(1, [10, 20]), (2, [10, 20, 30])]) =
      wrapper_result (sync_write_ret 30 [(1, [10, 20]), (2, [30, 40])]) :=
  ⟨rfl, rfl, rfl⟩

/-- Claim C3 (amended): faults detected inside operations wrapped by
`decorator_error_handling` — the error logger and the sync-write
coordinator among them — are raised internally but caught by the
decorator, printed and discarded: the wrapped call returns `None`,
indistinguishable from a successful call that returns `None`.  No retry
happens, but no typed fault reaches the caller either. -/
theorem decorator_discards_faults :
    ∀ (mem : Nat) (batch : List (Nat × List Nat)) (err : Nat),
      ((sync_write_ret mem batch).isOk = false →
        wrapper_result (sync_write_ret mem batch) = .none) ∧
      ((log_excep_exc err).isOk = false →
        wrapper_result (log_excep_exc err) = .none) := by
  intro mem batch err
  constructor
  · intro h
    cases hr : sync_write_ret mem batch with
    | ok v => rw [hr] at h; simp [Except.isOk, Except.toBool] at h
    | error f => rfl
  · intro h
    cases hr : log_excep_exc err with
    | ok v => rw [hr] at h; simp [Except.isOk, Except.toBool] at h
    | error f => rfl

/-- Witness for `decorator_discards_faults`: the mismatched sync batch's
fault is discarded, and the error-byte-5 fault of the logger is
discarded. -/
theorem decorator_discards_faults_witness :
    wrapper_result (sync_write_ret 30 [(1, [10, 20]), (2, [10, 20, 30])]) = .none ∧
    wrapper_result (log_excep_exc 5) = .none :=
  ⟨(decorator_discards_faults 30 [(1, [10, 20]), (2, [10, 20, 30])] 5).1 (by rfl),
   (decorator_discards_faults 30 [(1, [10, 20]), (2, [10, 20, 30])] 5).2 (by rfl)⟩

/-- Claim C4 is false on the code: `[255, 255, 1, 3, 0, 7, 244]` is a
well-formed status packet (checksum 244); mutating its payload byte 7 to 8
must, per the claim, make the decode report a checksum mismatch, yet
`__read_status_pkt` raises no fault, stores error byte 0 and returns the
corrupted bytes unchanged; a packet with a broken header and wrong length
field is accepted the same way. -/
theorem read_status_accepts_corrupt_counterexample :
    (read_status_pkt ⟨1, 2, 0⟩ ⟨[255, 255, 1, 3, 0, 8, 244], []⟩ 7).2.2.1 = none ∧
    (read_status_pkt ⟨1, 2, 0⟩ ⟨[255, 255, 1, 3, 0, 8, 244], []⟩ 7).2.2.2 =
      [255, 255, 1, 3, 0, 8, 244] ∧
    checksum_spec [255, 255, 1, 3, 0, 8, 244] ≠ 244 ∧
    checksum_spec [255, 255, 1, 3, 0, 7, 244] = 244 ∧
    (read_status_pkt ⟨1, 2, 0⟩ ⟨[0, 0, 1, 9, 0, 7, 244], []⟩ 7).2.2.1 = none := by
  decide

/-- Claim C4 (amended): decoding a status packet performs no framing
validation at all.  Any received sequence of at least 6 bytes is accepted;
the outcome (stored error byte and raised fault) depends only on the byte
at index 4, so corrupting the header, the length field, the checksum or
any payload byte other than index 4 is never detected. -/
theorem read_status_no_frame_validation (s : Session) (buf buf2 : List Nat)
    (w : List (List Nat)) (n : Nat)
    (h1 : 6 ≤ (buf.take n).length) (h2 : 6 ≤ (buf2.take n).length)
    (h3 : (buf.take n).getD 4 0 = (buf2.take n).getD 4 0) :
    (read_status_pkt s ⟨buf, w⟩ n).1 = (read_status_pkt s ⟨buf2, w⟩ n).1 ∧
    (read_status_pkt s ⟨buf, w⟩ n).2.2.1 = (read_status_pkt s ⟨buf2, w⟩ n).2.2.1 := by
  have h1' : 6 ≤ n ∧ 6 ≤ buf.length := by
    have := List.length_take n buf
    omega
  have h2' : 6 ≤ n ∧ 6 ≤ buf2.length := by
    have := List.length_take n buf2
    omega
  have h3' : (buf.take n)[4]?.getD 0 = (buf2.take n)[4]?.getD 0 := by
    simpa [List.getD] using h3
  constructor
  · simp [read_status_pkt, serial_read, h1'.1, h1'.2, h2'.1, h2'.2, h3']
  · simp [read_status_pkt, serial_read, h1'.1, h1'.2, h2'.1, h2'.2, h3']

/-- Witness for `read_status_no_frame_validation`: a well-formed packet and
a fully corrupted one (header, length, payload, checksum all differ)
produce identical decode outcomes. -/
theorem read_status_no_frame_validation_witness :
    (read_status_pkt ⟨1, 2, 0⟩ ⟨[255, 255, 1, 3, 0, 7, 244], []⟩ 7).2.2.1 =
      (read_status_pkt ⟨1, 2, 0⟩ ⟨[0, 0, 9, 9, 0, 8, 8], []⟩ 7).2.2.1 :=
  (read_status_no_frame_validation ⟨1, 2, 0⟩ [255, 255, 1, 3, 0, 7, 244]
    [0, 0, 9, 9, 0, 8, 8] [] 7 (by decide) (by decide) (by decide)).2

/-- Claim C9 is false on the code: with a stored last error 5 from a
previous exchange, a read that returns an empty buffer leaves the stored
error unchanged but still passes it to `__log_excep`, which raises the
input-voltage fault again. -/
theorem short_read_stale_error_counterexample :
    (read_status_pkt ⟨1, 2, 5⟩ ⟨[], []⟩ 6).1.err = 5 ∧
    (read_status_pkt ⟨1, 2, 5⟩ ⟨[], []⟩ 6).2.2.1 = some Fault.inputVoltage := by
  decide

/-- Claim C9 (amended): when fewer than 6 bytes arrive, the session state
(including the stored last error) is unchanged and the short buffer is
returned, but the stored last error is unconditionally re-fed to the error
logger, so a nonzero error byte from a previous exchange raises its fault
again; only a zero stored error raises no fault. -/
theorem short_read_keeps_error_refires_logger (s : Session) (buf : List Nat)
    (w : List (List Nat)) (n : Nat) (hshort : (buf.take n).length < 6) :
    read_status_pkt s ⟨buf, w⟩ n =
      (s, ⟨buf.drop n, w⟩, log_excep_raised s.err, buf.take n) ∧
    (s.err = 0 → (read_status_pkt s ⟨buf, w⟩ n).2.2.1 = none) := by
  have hc : ¬ (6 ≤ n ∧ 6 ≤ buf.length) := by
    have := List.length_take n buf
    omega
  constructor
  · simp [read_status_pkt, serial_read, hc]
  · intro h0
    simp [read_status_pkt, serial_read, hc, h0, log_excep_raised, log_excep_exc]

/-- Witness for `short_read_keeps_error_refires_logger` on an empty read
with stored error 5. -/
theorem short_read_keeps_error_refires_logger_witness :
    read_status_pkt ⟨1, 2, 5⟩ ⟨[], []⟩ 6 =
      (⟨1, 2, 5⟩, ⟨[], []⟩, log_excep_raised 5, []) :=
  (short_read_keeps_error_refires_logger ⟨1, 2, 5⟩ [] [] 6 (by decide)).1

/-- Claim C5: for any session (any status-return level), register and byte
count, `_request_n_byte` performs exactly one serial write — the read-data
packet for this servo, register and count — then consumes exactly
`6 + dt_len` bytes of the reply, stores the reply's byte 4 as the last
error and runs it through the error logger, and returns exactly the
payload slice (the status packet stripped of the two header bytes, id,
length, error byte and trailing checksum). -/
theorem request_n_byte_spec (s : Session) (register dt_len sid lenb errb cks : Nat)
    (params rest : List Nat) (w0 : List (List Nat))
    (hlen : params.length = dt_len) :
    request_n_byte s ⟨[255, 255, sid, lenb, errb] ++ params ++ [cks] ++ rest, w0⟩
        register dt_len =
      ({ s with err := errb },
       ⟨rest, w0 ++ [read_data_packet s.id register dt_len]⟩,
       log_excep_raised errb, params) := by
  have hplen : ([255, 255, sid, lenb, errb] ++ (params ++ [cks])).length = 6 + dt_len := by
    simp [hlen]
    omega
  have htake : (([255, 255, sid, lenb, errb] ++ (params ++ [cks])) ++ rest).take (6 + dt_len) =
      [255, 255, sid, lenb, errb] ++ (params ++ [cks]) := List.take_left' hplen
  have hdrop : (([255, 255, sid, lenb, errb] ++ (params ++ [cks])) ++ rest).drop (6 + dt_len) =
      rest := List.drop_left' hplen
  have hassoc : [255, 255, sid, lenb, errb] ++ params ++ [cks] ++ rest =
      ([255, 255, sid, lenb, errb] ++ (params ++ [cks])) ++ rest := by
    simp
  rw [hassoc]
  simp only [request_n_byte, write_read_data_pkt, send_packet, read_status_pkt,
    serial_read, read_data_packet, htake, hdrop, Bool.true_eq_false, and_false,
    if_false]
  simp [hplen, List.getD, List.dropLast_concat]

/-- Witness for `request_n_byte_spec`: reading one byte (value 99) from
register 43 of servo 1 with a well-formed reply on the line. -/
theorem request_n_byte_spec_witness :
    request_n_byte ⟨1, 2, 0⟩ ⟨[255, 255, 1, 3, 0, 99, 152], []⟩ 43 1 =
      (⟨1, 2, 0⟩, ⟨[], [[255, 255, 1, 4, 2, 43, 1, 204]]⟩, none, [99]) := by
  have h := request_n_byte_spec ⟨1, 2, 0⟩ 43 1 1 3 0 152 [99] [] [] (by decide)
  simpa [read_data_packet, send_packet_bytes, check_sum, log_excep_raised,
    log_excep_exc] using h

/-- Claim C6 is false on the code for value lists of equal parity: a batch
where servo 1 supplies 2 values and servo 2 supplies 4 passes the
`len(data_lst) % len(id_lst)` check after every entry, so sync write
builds and transmits a packet even though the per-device lengths differ —
one transport write occurs instead of the claimed zero. -/
theorem sync_write_equal_parity_counterexample :
    sync_write 30 [(1, [10, 20]), (2, [10, 20, 30, 40])] =
      .ok [255, 255, 254, 18, 131, 30, 6, 1, 10, 0, 20, 0, 2,
           10, 0, 20, 0, 30, 0, 40, 0, 195] ∧
    sync_write_writes 30 [(1, [10, 20]), (2, [10, 20, 30, 40])] =
      [[255, 255, 254, 18, 131, 30, 6, 1, 10, 0, 20, 0, 2,
        10, 0, 20, 0, 30, 0, 40, 0, 195]] :=
  ⟨rfl, rfl⟩

/-- Claim C6 (amended): after each batch entry the coordinator checks only
that the cumulative value count is divisible by the number of entries so
far, so for a two-entry batch it raises `PacketTypeError` — before any
serial write — exactly when the two value-list lengths have different
parity; the claim's 2-versus-3 example is rejected with zero transport
writes, but differing lengths of equal parity (such as 2 versus 4) are
accepted and transmitted. -/
theorem sync_write_two_entry_parity (mem i1 i2 : Nat) (v1 v2 : List Nat) :
    ((v1.length + v2.length) % 2 = 1 →
      sync_write mem [(i1, v1), (i2, v2)] = .error .packetType ∧
      sync_write_writes mem [(i1, v1), (i2, v2)] = []) ∧
    ((v1.length + v2.length) % 2 = 0 →
      ∃ t, sync_write mem [(i1, v1), (i2, v2)] = .ok t ∧
        sync_write_writes mem [(i1, v1), (i2, v2)] = [t]) := by
  have hcol : sync_collect [(i1, v1), (i2, v2)] [] [] =
      (if (v1.length + v2.length) % 2 ≠ 0 then .error .packetType
       else .ok ([i1, i2], v1 ++ v2)) := by
    simp [sync_collect, Nat.mod_one]
  constructor
  · intro hodd
    have hne : (v1.length + v2.length) % 2 ≠ 0 := by omega
    constructor
    · simp [sync_write, hcol, hne]
    · simp [sync_write_writes, sync_write, hcol, hne]
  · intro heven
    have hne : ¬ (v1.length + v2.length) % 2 ≠ 0 := by omega
    cases hsw : sync_write mem [(i1, v1), (i2, v2)] with
    | error f =>
      exfalso
      simp only [sync_write, hcol, if_neg hne] at hsw
      simp at hsw
    | ok t =>
      exact ⟨t, rfl, by simp [sync_write_writes, hsw]⟩

/-- Witness for `sync_write_two_entry_parity`: the claim's own example —
2 values for one servo and 3 for another — is rejected with zero serial
writes. -/
theorem sync_write_two_entry_parity_witness :
    sync_write 30 [(1, [10, 20]), (2, [10, 20, 30])] = .error .packetType ∧
    sync_write_writes 30 [(1, [10, 20]), (2, [10, 20, 30])] = [] :=
  (sync_write_two_entry_parity 30 1 2 [10, 20] [10, 20, 30]).1 (by decide)

lemma angle_unit_pos : 0 < _ANGLE_UNIT := by
  unfold _ANGLE_UNIT
  have h := Real.pi_pos
  positivity

/-- Claim C7 (amended): whenever `angle + offset` is non-negative — which
holds for every angle in the configured `[angle_min, angle_max]` under the
constructor's offset convention, where the stored offset includes the
+150° zero shift — the angle→ticks→angle round trip lands within one
tick's worth of radians of the original angle, for both rotation senses.
(The code truncates with `int` instead of rounding; for the reversed sense
with `angle + offset < 0` the error can exceed one tick, so the claim's
"any offset" is false.) -/
theorem roundtrip_within_one_tick (angle offset : ℝ) (ccw : Bool)
    (h : 0 ≤ angle + offset) :
    |convert_ticks_to_angle (convert_angle_to_ticks angle ccw offset) ccw offset
        - angle| ≤ 1 / _ANGLE_UNIT := by
  have hu : 0 < _ANGLE_UNIT := angle_unit_pos
  have hne : _ANGLE_UNIT ≠ 0 := ne_of_gt hu
  have hx0 : 0 ≤ (angle + offset) * _ANGLE_UNIT := mul_nonneg h hu.le
  have hpy : py_int ((angle + offset) * _ANGLE_UNIT) =
      ⌊(angle + offset) * _ANGLE_UNIT⌋ := by
    unfold py_int
    rw [if_pos hx0]
  have hfl1 : (⌊(angle + offset) * _ANGLE_UNIT⌋ : ℝ) ≤ (angle + offset) * _ANGLE_UNIT :=
    Int.floor_le _
  have hfl2 : (angle + offset) * _ANGLE_UNIT < ⌊(angle + offset) * _ANGLE_UNIT⌋ + 1 :=
    Int.lt_floor_add_one _
  have hao : ((angle + offset) * _ANGLE_UNIT) / _ANGLE_UNIT = angle + offset :=
    mul_div_cancel_right₀ _ hne
  cases ccw with
  | false =>
    have e1 : convert_angle_to_ticks angle false offset =
        ⌊(angle + offset) * _ANGLE_UNIT⌋ := by
      unfold convert_angle_to_ticks
      simp [hpy]
    have e2 : convert_ticks_to_angle ⌊(angle + offset) * _ANGLE_UNIT⌋ false offset =
        (⌊(angle + offset) * _ANGLE_UNIT⌋ : ℝ) / _ANGLE_UNIT - offset := by
      unfold convert_ticks_to_angle
      simp
    rw [e1, e2]
    have e3 : (⌊(angle + offset) * _ANGLE_UNIT⌋ : ℝ) / _ANGLE_UNIT - offset - angle =
        ((⌊(angle + offset) * _ANGLE_UNIT⌋ : ℝ) - (angle + offset) * _ANGLE_UNIT) /
          _ANGLE_UNIT := by
      rw [sub_div, hao]
      ring
    rw [e3, abs_div, abs_of_pos hu]
    have habs : |(⌊(angle + offset) * _ANGLE_UNIT⌋ : ℝ) -
        (angle + offset) * _ANGLE_UNIT| ≤ 1 := by
      rw [abs_le]
      constructor <;> linarith
    exact div_le_div_of_nonneg_right habs hu.le
  | true =>
    have e1 : convert_angle_to_ticks angle true offset =
        1023 - 1 - ⌊(angle + offset) * _ANGLE_UNIT⌋ := by
      unfold convert_angle_to_ticks
      simp [hpy]
    have e2 : convert_ticks_to_angle (1023 - 1 - ⌊(angle + offset) * _ANGLE_UNIT⌋)
        true offset =
        ((1 : ℝ) + ⌊(angle + offset) * _ANGLE_UNIT⌋) / _ANGLE_UNIT - offset := by
      unfold convert_ticks_to_angle
      have e : (1023 : ℤ) - (1023 - 1 - ⌊(angle + offset) * _ANGLE_UNIT⌋) =
          1 + ⌊(angle + offset) * _ANGLE_UNIT⌋ := by ring
      simp only [if_pos]
      rw [e]
      push_cast
      ring_nf
    rw [e1, e2]
    have e3 : ((1 : ℝ) + ⌊(angle + offset) * _ANGLE_UNIT⌋) / _ANGLE_UNIT - offset - angle =
        ((1 : ℝ) + ⌊(angle + offset) * _ANGLE_UNIT⌋ - (angle + offset) * _ANGLE_UNIT) /
          _ANGLE_UNIT := by
      rw [sub_div, hao]
      ring
    rw [e3, abs_div, abs_of_pos hu]
    have habs : |(1 : ℝ) + ⌊(angle + offset) * _ANGLE_UNIT⌋ -
        (angle + offset) * _ANGLE_UNIT| ≤ 1 := by
      rw [abs_le]
      constructor <;> linarith
    exact div_le_div_of_nonneg_right habs hu.le

/-- Claim C7 is false on the code as stated ("any offset"): with the
reversed sense, angle `0` (inside the default limits `[0, 300°]`) and
offset `-(1/2)/_ANGLE_UNIT`, Python's `int` truncates `-0.5` to `0`, the
reversed encode maps it to tick 1022 but the reversed decode inverts
around 1023, so the round trip lands `1.5` ticks away — strictly more
than one tick's worth of radians. -/
theorem roundtrip_exceeds_one_tick_counterexample :
    0 ≤ (0 : ℝ) ∧ (0 : ℝ) ≤ 300 * (2 * Real.pi / 360) ∧
    1 / _ANGLE_UNIT <
      |convert_ticks_to_angle
          (convert_angle_to_ticks 0 true (-(1 / 2) / _ANGLE_UNIT)) true
          (-(1 / 2) / _ANGLE_UNIT) - 0| := by
  have hu : 0 < _ANGLE_UNIT := angle_unit_pos
  have hne : _ANGLE_UNIT ≠ 0 := ne_of_gt hu
  have hpi := Real.pi_pos
  refine ⟨le_refl 0, by positivity, ?_⟩
  have h1 : (0 + -(1 / 2) / _ANGLE_UNIT) * _ANGLE_UNIT = -(1 / 2 : ℝ) := by
    field_simp
    ring
  have h2 : py_int (-(1 / 2 : ℝ)) = 0 := by
    unfold py_int
    rw [if_neg (by norm_num)]
    norm_num
  have e1 : convert_angle_to_ticks 0 true (-(1 / 2) / _ANGLE_UNIT) = 1022 := by
    simp only [convert_angle_to_ticks]
    rw [h1, h2]
    norm_num
  have e2 : convert_ticks_to_angle 1022 true (-(1 / 2) / _ANGLE_UNIT) =
      3 / 2 / _ANGLE_UNIT := by
    simp only [convert_ticks_to_angle]
    norm_num
    field_simp
    ring
  rw [e1, e2, sub_zero, abs_of_pos (by positivity)]
  exact (div_lt_div_iff_of_pos_right hu).mpr (by norm_num)

/-- Witness for `roundtrip_within_one_tick` at angle 0, offset 0, normal
rotation sense. -/
theorem roundtrip_within_one_tick_witness :
    |convert_ticks_to_angle (convert_angle_to_ticks 0 false 0) false 0 - 0| ≤
      1 / _ANGLE_UNIT :=
  roundtrip_within_one_tick 0 0 false (by norm_num)

/-- Claim C8: for every angle strictly outside the joint's soft limits
(adjusted by the stored offset), both angle-bearing setters print a range
message and return early — refusing rather than clamping — and issue no
write call to the servo layer, so no packet reaches the transport for that
request. -/
theorem setters_refuse_out_of_range (j : Joint) (angle speed : ℝ)
    (h : angle > j.a_max - j.a_offset ∨ angle < j.a_min - j.a_offset) :
    ((set_goal_position j angle).2.1 = .refused "Angle zu groß" ∨
     (set_goal_position j angle).2.1 = .refused "Angle zu klein") ∧
    (set_goal_position j angle).2.2 = [] ∧
    ((set_desired_angle_speed j angle speed).2.1 = .refused "Angle zu groß" ∨
     (set_desired_angle_speed j angle speed).2.1 = .refused "Angle zu klein") ∧
    (set_desired_angle_speed j angle speed).2.2 = [] := by
  by_cases hbig : angle > j.a_max - j.a_offset
  · simp [set_goal_position, set_desired_angle_speed, hbig]
  · have hsmall : angle < j.a_min - j.a_offset := h.resolve_left hbig
    simp [set_goal_position, set_desired_angle_speed, hbig, hsmall]

/-- Witness for `setters_refuse_out_of_range`: a joint with limits
`[0, 1]`, zero offset, and the out-of-range request `angle = 2`. -/
theorem setters_refuse_out_of_range_witness :
    ((set_goal_position ⟨false, 0, 1, 0, 0⟩ 2).2.1 = .refused "Angle zu groß" ∨
     (set_goal_position ⟨false, 0, 1, 0, 0⟩ 2).2.1 = .refused "Angle zu klein") ∧
    (set_goal_position ⟨false, 0, 1, 0, 0⟩ 2).2.2 = [] ∧
    ((set_desired_angle_speed ⟨false, 0, 1, 0, 0⟩ 2 0).2.1 = .refused "Angle zu groß" ∨
     (set_desired_angle_speed ⟨false, 0, 1, 0, 0⟩ 2 0).2.1 = .refused "Angle zu klein") ∧
    (set_desired_angle_speed ⟨false, 0, 1, 0, 0⟩ 2 0).2.2 = [] :=
  setters_refuse_out_of_range ⟨false, 0, 1, 0, 0⟩ 2 0 (Or.inl (by norm_num))

/-- Claim C10: `set_desired_angle_speed` assigns `self.savedgoalposition`
before the limit checks, so a refused out-of-range request still updates
the saved goal position to the refused angle; `set_goal_position` assigns
only a local variable of the same name, so the stored value observed by
`get_saved_goal_position` is never updated by it, whatever the angle. -/
theorem saved_goal_position_frame (j : Joint) (angle speed a2 : ℝ)
    (h : angle > j.a_max - j.a_offset ∨ angle < j.a_min - j.a_offset) :
    get_saved_goal_position (set_desired_angle_speed j angle speed).1 = angle ∧
    (set_desired_angle_speed j angle speed).2.1 ≠ SetResult.completed ∧
    get_saved_goal_position (set_goal_position j a2).1 = get_saved_goal_position j := by
  refine ⟨?_, ?_, ?_⟩
  · unfold set_desired_angle_speed
    split_ifs <;> rfl
  · by_cases hbig : angle > j.a_max - j.a_offset
    · simp [set_desired_angle_speed, hbig]
    · have hsmall : angle < j.a_min - j.a_offset := h.resolve_left hbig
      simp [set_desired_angle_speed, hbig, hsmall]
  · unfold set_goal_position
    split_ifs <;> rfl

/-- Witness for `saved_goal_position_frame`: a joint with stored saved
goal 5; the refused request 2 updates the stored value through
`set_desired_angle_speed`, while `set_goal_position` with angle 7 leaves
it at 5. -/
theorem saved_goal_position_frame_witness :
    get_saved_goal_position (set_desired_angle_speed ⟨false, 0, 1, 0, 5⟩ 2 0).1 = 2 ∧
    (set_desired_angle_speed ⟨false, 0, 1, 0, 5⟩ 2 0).2.1 ≠ SetResult.completed ∧
    get_saved_goal_position (set_goal_position ⟨false, 0, 1, 0, 5⟩ 7).1 =
      get_saved_goal_position ⟨false, 0, 1, 0, 5⟩ :=
  saved_goal_position_frame ⟨false, 0, 1, 0, 5⟩ 2 0 7 (Or.inl (by norm_num))
